import Mathlib

/-!
Shallow embedding of the sales subsystem of the pharmacy-management backend
(`src/backend/src/services/CustomerService.js`, second `SalesService` variant,
lines 834-1403; `src/backend/src/repositories/SalesRepository.js`;
`src/backend/src/models/SaleItem.js`; Customer model `src/unnamed/part_005`;
Sale model `src/unnamed/part_007`), together with proofs settling the frozen
claims about it.

Modelling conventions:
* JavaScript numbers are embedded as exact rationals (`ℚ`).  All monetary
  values appearing in this development are small decimals for which the JS
  double computations coincide with the exact rational ones.
* `Number.prototype.toFixed(2)` followed by `parseFloat` is embedded as
  rounding to two decimals with ties toward positive infinity, which is the
  rounding ECMA-262 specifies for `toFixed` ("if there are two such n, pick
  the larger n").
* The Sequelize data layer is embedded with its documented defaults:
  `Model.create` and static `Model.update` validate the written fields
  (`options.validate` defaults to `true`), while `Model.bulkCreate` does NOT
  validate (its `options.validate` defaults to `false`).  Field validators
  are taken from the model definitions (`min: 0` bounds, `isIn` enums).
* A service call runs inside one database transaction.  Transactional writes
  accumulate in a working copy of the state; every `catch`/`rollback` path
  returns the original state.  The customer-loyalty writes
  (`customer.save()` / `customer.update()` in part_005 and in
  `_adjustCustomerLoyaltyForRefund`) are issued WITHOUT the transaction
  object, so they commit on their own; they are the last fallible step
  before `transaction.commit()`, and the commit itself is modelled as always
  succeeding, so a successful loyalty write merges into the committed state
  and a failed one has no effect.  Infrastructure failures of the other
  database calls are modelled by the injectable fault flags.
-/

namespace PharmacySales

/-- Monetary amounts and prices (JS numbers, embedded as exact rationals). -/
abbrev Money := ℚ

/-- Rounding of `Number.prototype.toFixed(2)` composed with `parseFloat`:
two-decimal rounding, ties toward positive infinity (ECMA-262). -/
def toFixed2 (q : Money) : Money := ((round (q * 100) : ℤ) : ℚ) / 100

/-- JavaScript `v || d` on an optional numeric value: `0` is falsy, so an
explicit zero falls back to the default, exactly like an absent value. -/
def jsOr (v : Option Money) (d : Money) : Money :=
  match v with
  | none => d
  | some x => if x = 0 then d else x

/-- JavaScript truthiness of an optional id (`if (customerId)` and
`customerId || null` in `processSale`): id `0` behaves like an absent id. -/
def normalizeCid (v : Option Nat) : Option Nat :=
  match v with
  | none => none
  | some c => if c = 0 then none else some c

/-- JavaScript `notes || null`: the empty string is falsy. -/
def jsOrStr (v : Option String) : Option String :=
  match v with
  | none => none
  | some s => if s = "" then none else some s

/-- Medicine row (model `src/backend/src/models/Medicine.js`): the fields the
sales flows read and write. -/
structure Medicine where
  id : Nat
  name : String
  sellingPrice : Money
  stockQuantity : Int
  batchNumber : Option String
  expiryDate : Option String
  isActive : Bool
deriving DecidableEq

/-- Customer row (model `src/unnamed/part_005`): the fields the sales flows
read and write. -/
structure Customer where
  id : Nat
  loyaltyPoints : Int
  totalPurchases : Money
  isActive : Bool
deriving DecidableEq

/-- Sale row (model `src/unnamed/part_007`).  `paymentStatus` is stored as a
string, as in JS; the model-level enum is the separate `paymentStatuses`
validation list below. -/
structure SaleRec where
  id : Nat
  saleNumber : String
  customerId : Option Nat
  userId : Nat
  subtotal : Money
  taxAmount : Money
  discountAmount : Money
  totalAmount : Money
  paymentMethod : String
  paymentStatus : String
  notes : Option String
deriving DecidableEq

/-- Sale line-item row (model `src/backend/src/models/SaleItem.js`). -/
structure SaleItemRec where
  saleId : Nat
  medicineId : Nat
  quantity : Int
  unitPrice : Money
  discount : Money
  totalPrice : Money
  batchNumber : Option String
  expiryDate : Option String
deriving DecidableEq

/-- The observable persisted state: the four tables the sales flows touch. -/
structure DB where
  medicines : List Medicine
  customers : List Customer
  sales : List SaleRec
  saleItems : List SaleItemRec
deriving DecidableEq

/-- Lookup `medicineRepository.findOne({ id, isActive: true })`. -/
def findActiveMedicine (db : DB) (mid : Nat) : Option Medicine :=
  db.medicines.find? (fun m => m.id == mid && m.isActive)

/-- Lookup of a medicine row by id regardless of `isActive` (the `include`
of `getSaleWithDetails` in `SalesRepository`). -/
def findMedicine (db : DB) (mid : Nat) : Option Medicine :=
  db.medicines.find? (fun m => m.id == mid)

/-- Lookup `customerRepository.findOne({ id, isActive: true })`. -/
def findActiveCustomer (db : DB) (cid : Nat) : Option Customer :=
  db.customers.find? (fun c => c.id == cid && c.isActive)

/-- Lookup of a customer row by id regardless of `isActive` (the `customer`
include of `getSaleWithDetails`). -/
def findCustomer (db : DB) (cid : Nat) : Option Customer :=
  db.customers.find? (fun c => c.id == cid)

/-- Lookup `salesRepository.getSaleWithDetails(saleId)`, sale row part. -/
def findSale (db : DB) (sid : Nat) : Option SaleRec :=
  db.sales.find? (fun s => s.id == sid)

/-- Line items of a sale, as loaded by `getSaleWithDetails`'s `items`
include. -/
def saleItemsOf (db : DB) (sid : Nat) : List SaleItemRec :=
  db.saleItems.filter (fun it => it.saleId == sid)

/-- Write of a medicine row's `stockQuantity` column
(`medicineRepository.update(id, .. stockQuantity ..)`). -/
def updateMedicineStock (db : DB) (mid : Nat) (q : Int) : DB :=
  { db with medicines :=
      db.medicines.map (fun m => if m.id == mid then { m with stockQuantity := q } else m) }

/-- Write-back of a customer row (`customer.save()` / `customer.update()`). -/
def setCustomer (db : DB) (c : Customer) : DB :=
  { db with customers := db.customers.map (fun c0 => if c0.id == c.id then c else c0) }

/-- Current stock of a medicine, defaulting to 0 when the row is absent. -/
def stockOf (db : DB) (mid : Nat) : Int :=
  ((findMedicine db mid).map Medicine.stockQuantity).getD 0

/-- Allowed `paymentMethod` values (Sale model enum and `isIn` validator). -/
def paymentMethods : List String := ["cash", "card", "insurance", "credit"]

/-- Allowed `paymentStatus` values (Sale model enum and `isIn` validator,
part_007 lines 105-116): note that neither `refunded` nor `cancelled` is
among them. -/
def paymentStatuses : List String := ["paid", "pending", "partial"]

/-- Field validation run by `Sale.create` (Sequelize validates on create by
default): the `min: 0` bounds on the four amounts and the `isIn` enums. -/
def saleCreateValid (s : SaleRec) : Prop :=
  0 ≤ s.subtotal ∧ 0 ≤ s.taxAmount ∧ 0 ≤ s.discountAmount ∧ 0 ≤ s.totalAmount ∧
    s.paymentMethod ∈ paymentMethods ∧ s.paymentStatus ∈ paymentStatuses

instance (s : SaleRec) : Decidable (saleCreateValid s) := by
  unfold saleCreateValid; infer_instance

/-- One line item of a `createSale` request body. -/
structure ReqItem where
  medicineId : Nat
  quantity : Int
  unitPrice : Option Money
  discount : Option Money
deriving DecidableEq

/-- A `createSale` request body (`saleData` in `processSale`); the
destructuring default `discountAmount = 0` means an absent sale-level
discount is the value `0`. -/
structure SaleRequest where
  customerId : Option Nat
  items : List ReqItem
  paymentMethod : String
  discountAmount : Money
  notes : Option String
deriving DecidableEq

/-- A validated item produced by `_validateAndPrepareItems` (lines
1235-1277): note the `medicine` field keeping the row snapshot read during
validation, later used by the inventory updates. -/
structure ValidItem where
  medicineId : Nat
  quantity : Int
  unitPrice : Money
  discount : Money
  totalPrice : Money
  batchNumber : Option String
  expiryDate : Option String
  medicine : Medicine
deriving DecidableEq

/-- Result of `_calculateSaleTotals`. -/
structure Totals where
  subtotal : Money
  taxAmount : Money
  discountAmount : Money
  totalAmount : Money
deriving DecidableEq

/-- Errors a sales-service call can surface: `SalesValidationError` codes,
`InsufficientStockError` with its diagnostic fields, Sequelize model
validation failures, JS type errors, and injected infrastructure faults. -/
inductive SaleErr where
  | validation (code : String)
  | insufficientStock (medicineId : Nat) (available : Int) (requested : Int)
  | modelValidation (field : String)
  | typeErr
  | infra (k : Nat)
deriving DecidableEq

/-- Injectable infrastructure faults for the database calls `processSale`
makes before its final commit (the commit itself is modelled as always
succeeding). -/
structure Faults where
  atCustomerLookup : Bool
  atValidateItems : Bool
  atCreateSale : Bool
  atCreateItems : Bool
  atInventory : Bool
  atLoyalty : Bool
deriving DecidableEq

/-- The no-fault schedule. -/
def noFaults : Faults := ⟨false, false, false, false, false, false⟩

/-- Injectable infrastructure faults for the database calls `processRefund`
makes before its final commit. -/
structure RefundFaults where
  atLoad : Bool
  atStatus : Bool
  atRestore : Bool
  atLoyalty : Bool
deriving DecidableEq

/-- The no-fault schedule for refunds. -/
def noFaultsR : RefundFaults := ⟨false, false, false, false⟩

deriving instance DecidableEq for Except

/-- Outcome of a service invocation: the returned result (success value or
thrown error) together with the observable committed state afterwards. -/
structure Outcome where
  result : Except SaleErr Nat
  db : DB
deriving DecidableEq

/-- Outcome of a refund invocation (success carries the refund amount). -/
structure RefundOutcome where
  result : Except SaleErr Money
  db : DB
deriving DecidableEq

/-- Embedding of `_validateAndPrepareItems` (CustomerService.js lines
1235-1277): per item, look the medicine up (active only), fail when the row
is missing, fail with the diagnostic `InsufficientStockError` when stock is
short, otherwise freeze unit price (`item.unitPrice || sellingPrice`),
discount (`item.discount || 0`), the rounded line total, and the medicine
snapshot.  The loop only reads state. -/
def validateAndPrepareItems (db : DB) : List ReqItem → Except SaleErr (List ValidItem)
  | [] => .ok []
  | it :: rest =>
    match findActiveMedicine db it.medicineId with
    | none => .error (.validation "MEDICINE_NOT_FOUND")
    | some m =>
      if m.stockQuantity < it.quantity then
        .error (.insufficientStock m.id m.stockQuantity it.quantity)
      else
        let up := jsOr it.unitPrice m.sellingPrice
        let disc := jsOr it.discount 0
        match validateAndPrepareItems db rest with
        | .error e => .error e
        | .ok vs =>
          .ok (⟨m.id, it.quantity, up, disc, toFixed2 (up * (it.quantity : ℚ) - disc),
                m.batchNumber, m.expiryDate, m⟩ :: vs)

/-- Tax rate policy constant (18% VAT, CustomerService.js line 1289). -/
def taxRate : ℚ := 18 / 100

/-- Embedding of `_calculateSaleTotals` (lines 1283-1299): the line discount
is folded into the subtotal, tax is computed on that discounted subtotal,
and each reported figure is rounded with `toFixed(2)` at the end. -/
def calculateSaleTotals (items : List ValidItem) (saleDiscountAmount : Money) : Totals :=
  let subtotal := items.foldl (fun sum it => sum + (it.unitPrice * (it.quantity : ℚ) - it.discount)) 0
  let discountAmount := saleDiscountAmount
  let taxAmount := subtotal * taxRate
  let totalAmount := subtotal + taxAmount - discountAmount
  ⟨toFixed2 subtotal, toFixed2 taxAmount, toFixed2 discountAmount, toFixed2 totalAmount⟩

/-- Row produced for `SaleItem.bulkCreate` inside `createSaleWithItems`
(SalesRepository.js lines 230-243).  `bulkCreate` does not run the model
validators, so no check happens here. -/
def toSaleItemRec (saleId : Nat) (v : ValidItem) : SaleItemRec :=
  ⟨saleId, v.medicineId, v.quantity, v.unitPrice, v.discount, v.totalPrice,
   v.batchNumber, v.expiryDate⟩

/-- Embedding of `_updateInventoryAfterSale` (lines 1305-1315): each line
item writes `item.medicine.stockQuantity - item.quantity`, where
`item.medicine` is the snapshot read during validation; for duplicate
medicine references the later absolute write overwrites the earlier one.
The medicine model's `min: 0` validator runs on the written value. -/
def applyInventorySaleUpdates : DB → List ValidItem → Except SaleErr DB
  | work, [] => .ok work
  | work, v :: rest =>
    if 0 ≤ v.medicine.stockQuantity - v.quantity then
      applyInventorySaleUpdates
        (updateMedicineStock work v.medicine.id (v.medicine.stockQuantity - v.quantity)) rest
    else .error (.modelValidation "stockQuantity")

/-- Embedding of `Customer.prototype.updatePurchaseTotal` (part_005 lines
245-255) together with the model validation its `save()` runs: the new
purchase total and point balance must be nonnegative, else the save throws
and persists nothing. -/
def updatePurchaseTotal (c : Customer) (amount : Money) : Except Unit Customer :=
  let newTotal := c.totalPurchases + amount
  let pointsToAdd : Int := ⌊amount / (10 : ℚ)⌋
  let newPoints := if 0 < pointsToAdd then c.loyaltyPoints + pointsToAdd else c.loyaltyPoints
  if 0 ≤ newTotal ∧ 0 ≤ newPoints then
    .ok { c with totalPurchases := newTotal, loyaltyPoints := newPoints }
  else .error ()

/-- Continuation of `processSale` after the customer check, shared between
the with-customer and without-customer branches. -/
def processSaleCont (db : DB) (req : SaleRequest) (userId : Nat) (saleNumber : String)
    (newSaleId : Nat) (f : Faults) (customer : Option Customer) : Outcome :=
  if f.atValidateItems then ⟨.error (.infra 1), db⟩ else
  match validateAndPrepareItems db req.items with
  | .error e => ⟨.error e, db⟩
  | .ok vitems =>
    let totals := calculateSaleTotals vitems req.discountAmount
    let sale : SaleRec :=
      ⟨newSaleId, saleNumber, normalizeCid req.customerId, userId,
       totals.subtotal, totals.taxAmount, totals.discountAmount, totals.totalAmount,
       req.paymentMethod, "paid", jsOrStr req.notes⟩
    if f.atCreateSale then ⟨.error (.infra 2), db⟩ else
    if saleCreateValid sale then
      let work1 : DB := { db with sales := db.sales ++ [sale] }
      if f.atCreateItems then ⟨.error (.infra 3), db⟩ else
      let work2 : DB := { work1 with saleItems := work1.saleItems ++ vitems.map (toSaleItemRec newSaleId) }
      if f.atInventory then ⟨.error (.infra 4), db⟩ else
      match applyInventorySaleUpdates work2 vitems with
      | .error e => ⟨.error e, db⟩
      | .ok work3 =>
        match customer with
        | none => ⟨.ok newSaleId, work3⟩
        | some c =>
          if f.atLoyalty then ⟨.error (.infra 5), db⟩ else
          match updatePurchaseTotal c totals.totalAmount with
          | .error _ => ⟨.error (.modelValidation "customer"), db⟩
          | .ok c2 => ⟨.ok newSaleId, setCustomer work3 c2⟩
    else ⟨.error (.modelValidation "sale"), db⟩

/-- Embedding of `SalesService.processSale` (CustomerService.js lines
857-916).  The sale number and new row id are environment inputs.  Every
`catch` path rolls the transaction back and returns the original state; the
non-transactional customer save is the last fallible step before the
commit, which is modelled as always succeeding. -/
def processSale (db : DB) (req : SaleRequest) (userId : Nat) (saleNumber : String)
    (newSaleId : Nat) (f : Faults) : Outcome :=
  if f.atCustomerLookup then ⟨.error (.infra 0), db⟩ else
  match normalizeCid req.customerId with
  | none => processSaleCont db req userId saleNumber newSaleId f none
  | some cid =>
    match findActiveCustomer db cid with
    | none => ⟨.error (.validation "CUSTOMER_NOT_FOUND"), db⟩
    | some c => processSaleCont db req userId saleNumber newSaleId f (some c)

/-- Notes string appended by `processRefund` (line 1010). -/
def refundNotes (oldNotes : Option String) (reason : String) (amt : Money) : String :=
  (match oldNotes with | some n => n | none => "") ++
    "\nREFUND: " ++ reason ++ " - Amount: " ++ toString amt ++ " TND"

/-- Notes string appended by `deleteSale` (line 1209). -/
def cancelNotes (oldNotes : Option String) : String :=
  (match oldNotes with | some n => n | none => "") ++ "\nCANCELLED: Sale cancelled by admin"

/-- Embedding of `SalesRepository.updateSaleStatus` (lines 253-258): a
static `Sale.update` of `paymentStatus` and `notes`; Sequelize validates the
written fields, and the model's `isIn` enum admits only `paid`, `pending`
and `partial`. -/
def updateSaleStatus (db : DB) (sid : Nat) (status : String) (notes : String) :
    Except SaleErr DB :=
  if status ∈ paymentStatuses then
    .ok { db with sales :=
      db.sales.map (fun s =>
        if s.id == sid then { s with paymentStatus := status, notes := some notes } else s) }
  else .error (.modelValidation "paymentStatus")

/-- Embedding of `_restoreInventoryAfterRefund` (lines 1329-1339): each line
item writes `item.medicine.stockQuantity + item.quantity`, with
`item.medicine` the row snapshot loaded with the sale at the start of the
call (`snap`); a missing medicine row is a JS `TypeError`, and the medicine
model's `min: 0` validator runs on the written value. -/
def restoreInventory (snap : DB) : DB → List SaleItemRec → Except SaleErr DB
  | work, [] => .ok work
  | work, it :: rest =>
    match findMedicine snap it.medicineId with
    | none => .error .typeErr
    | some m =>
      if 0 ≤ m.stockQuantity + it.quantity then
        restoreInventory snap (updateMedicineStock work it.medicineId (m.stockQuantity + it.quantity)) rest
      else .error (.modelValidation "stockQuantity")

/-- Embedding of `_adjustCustomerLoyaltyForRefund` (lines 1345-1355): both
written values are clamped at zero with `Math.max`, so the customer model
validation cannot fail here. -/
def adjustCustomerLoyaltyForRefund (c : Customer) (refundAmount : Money) : Customer :=
  { c with
      totalPurchases := max 0 (c.totalPurchases - refundAmount),
      loyaltyPoints := max 0 (c.loyaltyPoints - ⌊refundAmount / (10 : ℚ)⌋) }

/-- Embedding of `SalesService.processRefund` (CustomerService.js lines
988-1039).  `amount || sale.totalAmount` is the JS falsy-or.  Every `catch`
path rolls the transaction back; the non-transactional customer update is
the last fallible step before the commit, which is modelled as always
succeeding. -/
def processRefund (db : DB) (sid : Nat) (reason : String) (amount : Option Money)
    (f : RefundFaults) : RefundOutcome :=
  if f.atLoad then ⟨.error (.infra 10), db⟩ else
  match findSale db sid with
  | none => ⟨.error (.validation "SALE_NOT_FOUND"), db⟩
  | some sale =>
    if sale.paymentStatus == "refunded" then ⟨.error (.validation "ALREADY_REFUNDED"), db⟩ else
    let refundAmount := jsOr amount sale.totalAmount
    if sale.totalAmount < refundAmount then ⟨.error (.validation "INVALID_REFUND_AMOUNT"), db⟩ else
    if f.atStatus then ⟨.error (.infra 11), db⟩ else
    match updateSaleStatus db sid "refunded" (refundNotes sale.notes reason refundAmount) with
    | .error e => ⟨.error e, db⟩
    | .ok work1 =>
      if f.atRestore then ⟨.error (.infra 12), db⟩ else
      match restoreInventory db work1 (saleItemsOf db sid) with
      | .error e => ⟨.error e, db⟩
      | .ok work2 =>
        match sale.customerId.bind (findCustomer db) with
        | none => ⟨.ok refundAmount, work2⟩
        | some c =>
          if f.atLoyalty then ⟨.error (.infra 13), db⟩ else
          ⟨.ok refundAmount, setCustomer work2 (adjustCustomerLoyaltyForRefund c refundAmount)⟩

/-- A `PUT /api/sales/:id` body after the `allowedFields` filter of
`updateSale` (lines 1158-1166): only `notes` and `paymentMethod` survive. -/
structure SaleUpdateReq where
  notes : Option String
  paymentMethod : Option String
deriving DecidableEq

/-- The row write performed by `updateSale` when it goes through. -/
def applySaleUpdate (db : DB) (sid : Nat) (upd : SaleUpdateReq) : DB :=
  { db with sales :=
      db.sales.map (fun s =>
        if s.id == sid then
          { s with
              notes := match upd.notes with | some n => some n | none => s.notes,
              paymentMethod := upd.paymentMethod.getD s.paymentMethod }
        else s) }

/-- Embedding of `SalesService.updateSale` (CustomerService.js lines
1148-1184): loads the sale, keeps only the allowed fields `notes` and
`paymentMethod`, errors when none is present, and otherwise writes them (the
static update validates a written `paymentMethod` against the enum). -/
def updateSale (db : DB) (sid : Nat) (upd : SaleUpdateReq) : Outcome :=
  match findSale db sid with
  | none => ⟨.error (.validation "SALE_NOT_FOUND"), db⟩
  | some _ =>
    if upd.notes = none ∧ upd.paymentMethod = none then
      ⟨.error (.validation "NO_VALID_FIELDS"), db⟩
    else
      match upd.paymentMethod with
      | some pm =>
        if pm ∈ paymentMethods then ⟨.ok sid, applySaleUpdate db sid upd⟩
        else ⟨.error (.modelValidation "paymentMethod"), db⟩
      | none => ⟨.ok sid, applySaleUpdate db sid upd⟩

/-- Embedding of `SalesService.deleteSale` (CustomerService.js lines
1191-1227): a soft delete that marks the sale `cancelled`, restores
inventory and deducts loyalty, all in one transaction. -/
def deleteSale (db : DB) (sid : Nat) : Outcome :=
  match findSale db sid with
  | none => ⟨.error (.validation "SALE_NOT_FOUND"), db⟩
  | some sale =>
    if sale.paymentStatus == "refunded" || sale.paymentStatus == "cancelled" then
      ⟨.error (.validation "CANNOT_DELETE_SALE"), db⟩
    else
      match updateSaleStatus db sid "cancelled" (cancelNotes sale.notes) with
      | .error e => ⟨.error e, db⟩
      | .ok work1 =>
        match restoreInventory db work1 (saleItemsOf db sid) with
        | .error e => ⟨.error e, db⟩
        | .ok work2 =>
          match sale.customerId.bind (findCustomer db) with
          | none => ⟨.ok sid, work2⟩
          | some c => ⟨.ok sid, setCustomer work2 (adjustCustomerLoyaltyForRefund c sale.totalAmount)⟩

/-- Embedding of `_generateSaleNumber` (CustomerService.js lines 1394-1400):
the sale number is the concatenation of the literal `SA`, the dashless date
string and the timestamp suffix. -/
def generateSaleNumber (dateStr : String) (timestampSuffix : String) : String :=
  "SA" ++ dateStr ++ timestampSuffix

/-- JavaScript `Date.now().toString().slice(-4)`: the last four characters
of the decimal representation of the epoch-millisecond clock. -/
def last4 (t : Nat) : String :=
  let s := toString t
  s.drop (s.length - 4)

/-- JavaScript `String(n).padStart(4, '0')`, used by the `Sale.beforeCreate`
hook variant (part_007 lines 156-170) on the daily count. -/
def padStart4 (n : Nat) : String :=
  let s := toString n
  String.mk (List.replicate (4 - s.length) '0') ++ s

/-- An item request whose medicine resolves but whose requested quantity
exceeds the available stock. -/
def itemShort (db : DB) (it : ReqItem) : Prop :=
  ∃ m, findActiveMedicine db it.medicineId = some m ∧ m.stockQuantity < it.quantity

/-- The customer reference of a request resolves (or is absent). -/
def customerOk (db : DB) (req : SaleRequest) : Prop :=
  ∀ cid, normalizeCid req.customerId = some cid → (findActiveCustomer db cid).isSome

/-- Preservation of every persisted sale's identifying and monetary fields:
each sale row of `db` still exists in `db'` with the same id, number,
references and amounts (status and notes may differ). -/
def corePreserved (db db' : DB) : Prop :=
  ∀ s ∈ db.sales, ∃ s' ∈ db'.sales,
    s'.id = s.id ∧ s'.saleNumber = s.saleNumber ∧ s'.customerId = s.customerId ∧
    s'.userId = s.userId ∧ s'.subtotal = s.subtotal ∧ s'.taxAmount = s.taxAmount ∧
    s'.discountAmount = s.discountAmount ∧ s'.totalAmount = s.totalAmount

/-! Concrete states and requests used by the closed evaluation theorems and
the witnesses below. -/

/-- One active medicine, price 5, stock 10. -/
def dbDup : DB := ⟨[⟨1, "Med", 5, 10, none, none, true⟩], [], [], []⟩

/-- A cart referencing medicine 1 twice, quantities 2 and 3. -/
def reqDup : SaleRequest := ⟨none, [⟨1, 2, none, none⟩, ⟨1, 3, none, none⟩], "cash", 0, none⟩

/-- One active medicine, price 12.50, ample stock (the totals example). -/
def dbEx : DB := ⟨[⟨50, "Para", 25 / 2, 100, none, none, true⟩], [], [], []⟩

/-- The spec's totals example as a request: 3 units at 12.50 with a 5%
line discount (5% of 37.50 = 1.875) and zero sale-level discount. -/
def reqEx : SaleRequest := ⟨none, [⟨50, 3, none, some (15 / 8)⟩], "cash", 0, none⟩

/-- The medicine snapshot of the totals example. -/
def medEx : Medicine := ⟨50, "Para", 25 / 2, 100, none, none, true⟩

/-- The validated line of the totals example as `_validateAndPrepareItems`
produces it. -/
def vitemsEx : List ValidItem :=
  [⟨50, 3, 25 / 2, 15 / 8, toFixed2 (25 / 2 * 3 - 15 / 8), none, none, medEx⟩]

/-- Two active medicines for the negative-line-total scenario. -/
def dbNeg : DB :=
  ⟨[⟨1, "A", 5, 10, none, none, true⟩, ⟨2, "B", 100, 10, none, none, true⟩], [], [], []⟩

/-- A cart whose first line has discount 10 against a line value of 5
(negative line total) and whose second line keeps the subtotal positive. -/
def reqNeg : SaleRequest := ⟨none, [⟨1, 1, none, some 10⟩, ⟨2, 1, none, none⟩], "cash", 0, none⟩

/-- The sale row the negative-line scenario commits. -/
def saleNeg : SaleRec := ⟨1, "SA8", none, 7, 95, 171 / 10, 0, 1121 / 10, "cash", "paid", none⟩

/-- One active medicine with stock 3 (the shortfall scenario). -/
def dbShort : DB := ⟨[⟨1, "A", 5, 3, none, none, true⟩], [], [], []⟩

/-- A cart requesting 5 units of the stock-3 medicine. -/
def reqShort : SaleRequest := ⟨none, [⟨1, 5, none, none⟩], "cash", 0, none⟩

/-- A completed cash sale with one line item. -/
def saleDone : SaleRec := ⟨1, "SA1", none, 7, 10, 9 / 5, 0, 59 / 5, "cash", "paid", none⟩

/-- State holding `saleDone`, its line item, and the medicine it sold. -/
def dbDone : DB :=
  ⟨[⟨1, "Med", 5, 10, none, none, true⟩], [], [saleDone], [⟨1, 1, 2, 5, 0, 10, none, none⟩]⟩

/-- A sale already marked refunded. -/
def saleRefunded : SaleRec := ⟨2, "SA2", none, 7, 10, 9 / 5, 0, 59 / 5, "cash", "refunded", none⟩

/-- State holding the already-refunded sale. -/
def dbRefunded : DB := ⟨[], [], [saleRefunded], []⟩

/-- State holding only the completed sale (for the update scenario). -/
def dbUpd : DB := ⟨[], [], [saleDone], []⟩

/-- An update request switching the payment method to `card`. -/
def updCard : SaleUpdateReq := ⟨none, some "card"⟩

/-- One active zero-priced medicine (minimal successful-sale scenario). -/
def dbZero : DB := ⟨[⟨1, "Z", 0, 1, none, none, true⟩], [], [], []⟩

/-- A one-line cart for the zero-priced medicine. -/
def reqZero : SaleRequest := ⟨none, [⟨1, 1, none, none⟩], "cash", 0, none⟩

/-- The sale row the zero-priced scenario commits. -/
def saleZero : SaleRec := ⟨1, "SAW", none, 7, 0, 0, 0, 0, "cash", "paid", none⟩

/-! Helper lemmas shared by the claim theorems. -/

theorem updateMedicineStock_sales (db : DB) (mid : Nat) (q : Int) :
    (updateMedicineStock db mid q).sales = db.sales := rfl

theorem updateMedicineStock_saleItems (db : DB) (mid : Nat) (q : Int) :
    (updateMedicineStock db mid q).saleItems = db.saleItems := rfl

theorem updateMedicineStock_customers (db : DB) (mid : Nat) (q : Int) :
    (updateMedicineStock db mid q).customers = db.customers := rfl

theorem setCustomer_sales (db : DB) (c : Customer) : (setCustomer db c).sales = db.sales := rfl

theorem setCustomer_saleItems (db : DB) (c : Customer) :
    (setCustomer db c).saleItems = db.saleItems := rfl

/-- Status writes outside the model enum are rejected: `refunded`. -/
theorem updateSaleStatus_refunded (db : DB) (sid : Nat) (n : String) :
    updateSaleStatus db sid "refunded" n = .error (.modelValidation "paymentStatus") := by
  unfold updateSaleStatus
  exact if_neg (by decide)

/-- Status writes outside the model enum are rejected: `cancelled`. -/
theorem updateSaleStatus_cancelled (db : DB) (sid : Nat) (n : String) :
    updateSaleStatus db sid "cancelled" n = .error (.modelValidation "paymentStatus") := by
  unfold updateSaleStatus
  exact if_neg (by decide)

/-- Any error inside `processSaleCont` rolls back to the original state. -/
theorem processSaleCont_rollback (db : DB) (req : SaleRequest) (uid : Nat) (sn : String)
    (sid : Nat) (f : Faults) (cust : Option Customer) (e : SaleErr) (d : DB)
    (h : processSaleCont db req uid sn sid f cust = ⟨.error e, d⟩) : d = db := by
  simp only [processSaleCont] at h
  repeat' split at h
  all_goals simp_all

/-- Any error inside `processSale` rolls back to the original state. -/
theorem processSale_rollback (db : DB) (req : SaleRequest) (uid : Nat) (sn : String)
    (sid : Nat) (f : Faults) (e : SaleErr) (d : DB)
    (h : processSale db req uid sn sid f = ⟨.error e, d⟩) : d = db := by
  simp only [processSale] at h
  repeat' split at h
  all_goals first
    | exact processSaleCont_rollback _ _ _ _ _ _ _ _ _ h
    | simp_all

/-- A refund invocation never changes the observable state: every error path
rolls back, and the status write to `refunded` always fails the model's
`paymentStatus` validation, so the success path is unreachable. -/
theorem processRefund_db_eq (db : DB) (sid : Nat) (reason : String) (amt : Option Money)
    (f : RefundFaults) : (processRefund db sid reason amt f).db = db := by
  unfold processRefund
  simp only [updateSaleStatus_refunded]
  repeat' split
  all_goals rfl

/-- A `deleteSale` invocation never changes the observable state: the status
write to `cancelled` always fails the model's `paymentStatus` validation. -/
theorem deleteSale_db_eq (db : DB) (sid : Nat) : (deleteSale db sid).db = db := by
  unfold deleteSale
  simp only [updateSaleStatus_cancelled]
  repeat' split
  all_goals rfl

/-- A request list that fully resolves but contains a shortfall makes
`_validateAndPrepareItems` fail with the diagnostic stock error of one of
its shortfall items, without any state to roll back (the loop only reads). -/
theorem validateAndPrepareItems_short (db : DB) (items : List ReqItem)
    (hres : ∀ it ∈ items, (findActiveMedicine db it.medicineId).isSome)
    (hex : ∃ it ∈ items, itemShort db it) :
    ∃ it ∈ items, ∃ m, findActiveMedicine db it.medicineId = some m ∧
      m.stockQuantity < it.quantity ∧
      validateAndPrepareItems db items =
        .error (.insufficientStock m.id m.stockQuantity it.quantity) := by
  induction items with
  | nil => simp at hex
  | cons it rest ih =>
    obtain ⟨m, hm⟩ := Option.isSome_iff_exists.mp (hres it (by simp))
    by_cases hshort : m.stockQuantity < it.quantity
    · refine ⟨it, by simp, m, hm, hshort, ?_⟩
      unfold validateAndPrepareItems
      simp only [hm, if_pos hshort]
    · have hex' : ∃ it' ∈ rest, itemShort db it' := by
        obtain ⟨it', hmem, m', hm', hs'⟩ := hex
        rcases List.mem_cons.mp hmem with rfl | hmem'
        · rw [hm] at hm'
          cases hm'
          exact absurd hs' hshort
        · exact ⟨it', hmem', m', hm', hs'⟩
      obtain ⟨it', hmem', m', hm', hs', herr⟩ :=
        ih (fun x hx => hres x (List.mem_cons_of_mem _ hx)) hex'
      refine ⟨it', List.mem_cons_of_mem _ hmem', m', hm', hs', ?_⟩
      unfold validateAndPrepareItems
      simp only [hm, if_neg hshort, herr]

/-- With no injected faults, a validation failure of the item list aborts
`processSaleCont` with that error and the original state. -/
theorem processSaleCont_validate_error (db : DB) (req : SaleRequest) (uid : Nat) (sn : String)
    (sid : Nat) (cust : Option Customer) (e : SaleErr)
    (h : validateAndPrepareItems db req.items = .error e) :
    processSaleCont db req uid sn sid noFaults cust = ⟨.error e, db⟩ := by
  simp only [processSaleCont, noFaults, h]
  rfl

/-- Successful inventory updates only touch the medicines table. -/
theorem applyInventorySaleUpdates_preserves (l : List ValidItem) : ∀ w d : DB,
    applyInventorySaleUpdates w l = .ok d →
    d.sales = w.sales ∧ d.saleItems = w.saleItems ∧ d.customers = w.customers := by
  induction l with
  | nil =>
    intro w d h
    simp only [applyInventorySaleUpdates] at h
    cases h
    exact ⟨rfl, rfl, rfl⟩
  | cons v rest ih =>
    intro w d h
    simp only [applyInventorySaleUpdates] at h
    split at h
    · have h2 := ih _ _ h
      exact ⟨h2.1, h2.2.1, h2.2.2⟩
    · cases h

/-- A successful `processSaleCont` appends exactly one sale row, and that
row passed the create-time model validation. -/
theorem processSaleCont_ok (db : DB) (req : SaleRequest) (uid : Nat) (sn : String)
    (sid : Nat) (f : Faults) (cust : Option Customer) (n : Nat) (d : DB)
    (h : processSaleCont db req uid sn sid f cust = ⟨.ok n, d⟩) :
    ∃ sale, saleCreateValid sale ∧ d.sales = db.sales ++ [sale] := by
  simp only [processSaleCont] at h
  repeat' split at h
  all_goals simp_all
  all_goals obtain ⟨rfl, rfl⟩ := h
  all_goals refine ⟨_, by assumption, ?_⟩
  all_goals exact (applyInventorySaleUpdates_preserves _ _ _ (by assumption)).1

/-- A successful `processSale` appends exactly one sale row, and that row
passed the create-time model validation. -/
theorem processSale_ok (db : DB) (req : SaleRequest) (uid : Nat) (sn : String)
    (sid : Nat) (f : Faults) (n : Nat) (d : DB)
    (h : processSale db req uid sn sid f = ⟨.ok n, d⟩) :
    ∃ sale, saleCreateValid sale ∧ d.sales = db.sales ++ [sale] := by
  simp only [processSale] at h
  repeat' split at h
  all_goals first
    | exact processSaleCont_ok _ _ _ _ _ _ _ _ _ h
    | simp_all

theorem corePreserved_refl (db : DB) : corePreserved db db :=
  fun s hs => ⟨s, hs, rfl, rfl, rfl, rfl, rfl, rfl, rfl, rfl⟩

/-- The row write of `updateSale` touches only `notes` and `paymentMethod`. -/
theorem applySaleUpdate_core (db : DB) (sid : Nat) (upd : SaleUpdateReq) :
    corePreserved db (applySaleUpdate db sid upd) := by
  intro s hs
  unfold applySaleUpdate
  refine ⟨_, List.mem_map_of_mem _ hs, ?_⟩
  by_cases hid : (s.id == sid) = true <;> simp [hid]

/-- `updateSale` preserves every sale's core fields and the line items. -/
theorem updateSale_core (db : DB) (sid : Nat) (upd : SaleUpdateReq) :
    corePreserved db (updateSale db sid upd).db ∧
      (updateSale db sid upd).db.saleItems = db.saleItems := by
  unfold updateSale
  repeat' split
  all_goals first
    | exact ⟨corePreserved_refl db, rfl⟩
    | exact ⟨applySaleUpdate_core db sid upd, rfl⟩

/-! Claim theorems. -/

/-- Claim C1: every `createSale` (`processSale`) or `refundSale`
(`processRefund`) invocation that fails with any error before its final
commit leaves the observable state — medicine stock, customer loyalty and
purchase totals, and the persisted sale and line-item records — exactly as
it was before the invocation. -/
theorem claim1_error_rollback :
    (∀ (db : DB) (req : SaleRequest) (uid : Nat) (sn : String) (sid : Nat) (f : Faults)
        (e : SaleErr), (processSale db req uid sn sid f).result = .error e →
        (processSale db req uid sn sid f).db = db) ∧
    (∀ (db : DB) (sid : Nat) (reason : String) (amt : Option Money) (f : RefundFaults)
        (e : SaleErr), (processRefund db sid reason amt f).result = .error e →
        (processRefund db sid reason amt f).db = db) := by
  constructor
  · intro db req uid sn sid f e h
    exact processSale_rollback db req uid sn sid f e _ (by rw [← h])
  · intro db sid reason amt f e _
    exact processRefund_db_eq db sid reason amt f

/-- Witness for C1: a sale that fails on insufficient stock and a refund
that fails on the status write both leave the state unchanged. -/
theorem claim1_witness :
    (processSale dbShort reqShort 7 "SA4" 1 noFaults).db = dbShort ∧
    (processRefund dbDone 1 "damaged" none noFaultsR).db = dbDone :=
  ⟨claim1_error_rollback.1 dbShort reqShort 7 "SA4" 1 noFaults
      (.insufficientStock 1 3 5) (by with_unfolding_all decide),
   claim1_error_rollback.2 dbDone 1 "damaged" none noFaultsR
      (.modelValidation "paymentStatus") (by with_unfolding_all decide)⟩

/-- Claim C2: a refund attempt on a sale already marked `refunded` fails
with `ALREADY_REFUNDED` and changes nothing — no stock quantity, no
loyalty points, no purchase totals. -/
theorem claim2_second_refund_rejected (db : DB) (sid : Nat) (s : SaleRec) (reason : String)
    (amt : Option Money) (hfind : findSale db sid = some s)
    (hst : s.paymentStatus = "refunded") :
    processRefund db sid reason amt noFaultsR = ⟨.error (.validation "ALREADY_REFUNDED"), db⟩ := by
  unfold processRefund
  simp [noFaultsR, hfind, hst]

/-- Witness for C2: refunding the already-refunded sale of `dbRefunded`. -/
theorem claim2_witness :
    processRefund dbRefunded 2 "duplicate refund" none noFaultsR =
      ⟨.error (.validation "ALREADY_REFUNDED"), dbRefunded⟩ :=
  claim2_second_refund_rejected dbRefunded 2 saleRefunded "duplicate refund" none
    (by with_unfolding_all decide) (by with_unfolding_all decide)

/-- Claim C3 (stock conservation, duplicate-line case): committing a sale
whose cart references medicine 1 in two lines (quantities 2 and 3, initial
stock 10) leaves stock 7, not the conservation value 10 − (2 + 3) = 5:
each line's update writes the pre-sale snapshot minus only its own
quantity, and the later write overwrites the earlier one. -/
theorem claim3_duplicate_line_stock :
    (processSale dbDup reqDup 7 "SA1" 1 noFaults).result = .ok 1 ∧
    stockOf (processSale dbDup reqDup 7 "SA1" 1 noFaults).db 1 = 7 ∧
    stockOf dbDup 1 - (2 + 3) = 5 ∧ (7 : Int) ≠ 5 := by with_unfolding_all decide

/-- Claim C4: a `createSale` request whose references all resolve but which
contains a line item requesting more than the available stock fails with
`InsufficientStock` carrying the offending medicine's id, its available
quantity and the requested quantity, and mutates nothing. -/
theorem claim4_insufficient_stock (db : DB) (req : SaleRequest) (uid : Nat) (sn : String)
    (sid : Nat) (hcust : customerOk db req)
    (hres : ∀ it ∈ req.items, (findActiveMedicine db it.medicineId).isSome)
    (hex : ∃ it ∈ req.items, itemShort db it) :
    ∃ it ∈ req.items, ∃ m, findActiveMedicine db it.medicineId = some m ∧
      m.stockQuantity < it.quantity ∧
      processSale db req uid sn sid noFaults =
        ⟨.error (.insufficientStock m.id m.stockQuantity it.quantity), db⟩ := by
  obtain ⟨it, hmem, m, hm, hs, herr⟩ := validateAndPrepareItems_short db req.items hres hex
  refine ⟨it, hmem, m, hm, hs, ?_⟩
  unfold processSale
  rcases hcid : normalizeCid req.customerId with _ | cid
  · simp only [noFaults, hcid]
    exact processSaleCont_validate_error db req uid sn sid none _ herr
  · obtain ⟨c, hc⟩ := Option.isSome_iff_exists.mp (hcust cid hcid)
    simp only [noFaults, hcid, hc]
    exact processSaleCont_validate_error db req uid sn sid (some c) _ herr

/-- Witness for C4: requesting 5 units of a stock-3 medicine. -/
theorem claim4_witness :
    ∃ it ∈ reqShort.items, ∃ m, findActiveMedicine dbShort it.medicineId = some m ∧
      m.stockQuantity < it.quantity ∧
      processSale dbShort reqShort 7 "SA4" 1 noFaults =
        ⟨.error (.insufficientStock m.id m.stockQuantity it.quantity), dbShort⟩ :=
  claim4_insufficient_stock dbShort reqShort 7 "SA4" 1
    (fun cid h => by simp [reqShort, normalizeCid] at h)
    (by with_unfolding_all decide)
    ⟨⟨1, 5, none, none⟩, by with_unfolding_all decide,
      ⟨1, "A", 5, 3, none, none, true⟩, by with_unfolding_all decide,
      by with_unfolding_all decide⟩

/-- Counterexample to claim C5: on the spec's own example — 3 units at
12.50 with a 5% line discount (1.875) and zero sale-level discount — the
committed sale does not carry subtotal 37.50, tax 6.53, total 44.03: the
code folds the line discount into the subtotal before tax. -/
theorem claim5_counterexample :
    (processSale dbEx reqEx 7 "SA5" 1 noFaults).result = .ok 1 ∧
    ∀ s ∈ (processSale dbEx reqEx 7 "SA5" 1 noFaults).db.sales,
      s.subtotal ≠ 75 / 2 ∧ s.taxAmount ≠ 653 / 100 ∧ s.totalAmount ≠ 4403 / 100 := by
  with_unfolding_all decide

/-- Claim C5 as amended: on the example line items the totals calculator
deterministically yields subtotal 35.63, tax 6.41 and total 42.04 (the line
discount is applied inside the subtotal, before tax; rounding is two-decimal
`toFixed`). -/
theorem claim5_totals :
    calculateSaleTotals vitemsEx 0 = ⟨3563 / 100, 641 / 100, 0, 1051 / 25⟩ := by
  simp only [calculateSaleTotals, vitemsEx, medEx, List.foldl, toFixed2, round_eq, taxRate]
  norm_num [Totals.mk.injEq]

/-- Claim C6: a refund request whose supplied amount strictly exceeds the
(nonnegative) total of a not-yet-refunded sale is rejected with
`INVALID_REFUND_AMOUNT` and the state is unchanged — the amount is never
clamped to the sale's total. -/
theorem claim6_refund_bound (db : DB) (sid : Nat) (s : SaleRec) (reason : String) (a : Money)
    (hfind : findSale db sid = some s) (hst : s.paymentStatus ≠ "refunded")
    (h0 : 0 ≤ s.totalAmount) (hlt : s.totalAmount < a) :
    processRefund db sid reason (some a) noFaultsR =
      ⟨.error (.validation "INVALID_REFUND_AMOUNT"), db⟩ := by
  have ha : a ≠ 0 := ne_of_gt (lt_of_le_of_lt h0 hlt)
  have hbeq : (s.paymentStatus == "refunded") = false := by simp [hst]
  unfold processRefund
  simp [noFaultsR, hfind, hbeq, jsOr, ha, hlt]

/-- Witness for C6: asking 12 back from an 11.80 sale. -/
theorem claim6_witness :
    processRefund dbDone 1 "excess" (some 12) noFaultsR =
      ⟨.error (.validation "INVALID_REFUND_AMOUNT"), dbDone⟩ :=
  claim6_refund_bound dbDone 1 saleDone "excess" 12 (by with_unfolding_all decide)
    (by with_unfolding_all decide) (by with_unfolding_all decide)
    (by with_unfolding_all decide)

/-- Counterexample to claim C7: `updateSale` modifies the `paymentMethod`
of a persisted completed sale from `cash` to `card` — persisted sales are
not immutable outside the status transition. -/
theorem claim7_counterexample :
    (updateSale dbUpd 1 updCard).result = .ok 1 ∧
    findSale dbUpd 1 = some saleDone ∧ saleDone.paymentMethod = "cash" ∧
    findSale (updateSale dbUpd 1 updCard).db 1 =
      some { saleDone with paymentMethod := "card" } := by with_unfolding_all decide

/-- Claim C7 as amended: no operation deletes a sale or alters its
identifying and monetary fields — `updateSale`, `deleteSale` and
`processRefund` all preserve every sale row's id, number, references and
amounts, and leave the line items untouched; only status, notes and (via
`updateSale`) paymentMethod can change. -/
theorem claim7_immutable_core (db : DB) (sid : Nat) (upd : SaleUpdateReq) (reason : String)
    (amt : Option Money) (f : RefundFaults) :
    (corePreserved db (updateSale db sid upd).db ∧
      (updateSale db sid upd).db.saleItems = db.saleItems) ∧
    (corePreserved db (deleteSale db sid).db ∧
      (deleteSale db sid).db.saleItems = db.saleItems) ∧
    (corePreserved db (processRefund db sid reason amt f).db ∧
      (processRefund db sid reason amt f).db.saleItems = db.saleItems) := by
  refine ⟨updateSale_core db sid upd, ⟨?_, ?_⟩, ⟨?_, ?_⟩⟩
  · rw [deleteSale_db_eq]
    exact corePreserved_refl db
  · rw [deleteSale_db_eq]
  · rw [processRefund_db_eq]
    exact corePreserved_refl db
  · rw [processRefund_db_eq]

/-- Counterexample to claim C8: a sale whose first line has discount 10
against a line value of 5 commits successfully, persisting a line item with
negative `totalPrice` — nothing rejects a line discount exceeding the line
value while the overall subtotal stays nonnegative. -/
theorem claim8_counterexample :
    (processSale dbNeg reqNeg 7 "SA8" 1 noFaults).result = .ok 1 ∧
    ∃ it ∈ (processSale dbNeg reqNeg 7 "SA8" 1 noFaults).db.saleItems,
      it.unitPrice * (it.quantity : ℚ) < it.discount ∧ it.totalPrice < 0 := by
  with_unfolding_all decide

/-- Claim C8 as amended: every sale row a successful `processSale` adds has
nonnegative subtotal, tax, discount and total — negative sale headers are
rejected at persistence by the model validation (while negative individual
line totals are not rejected). -/
theorem claim8_committed_sale_nonnegative (db : DB) (req : SaleRequest) (uid : Nat)
    (sn : String) (sid : Nat) (f : Faults) (n : Nat)
    (hok : (processSale db req uid sn sid f).result = .ok n) (s : SaleRec)
    (hs : s ∈ (processSale db req uid sn sid f).db.sales) (hnew : s ∉ db.sales) :
    0 ≤ s.subtotal ∧ 0 ≤ s.taxAmount ∧ 0 ≤ s.discountAmount ∧ 0 ≤ s.totalAmount := by
  obtain ⟨sale, hvalid, hsales⟩ := processSale_ok db req uid sn sid f n _ (by rw [← hok])
  rw [hsales] at hs
  rcases List.mem_append.mp hs with hold | hnewmem
  · exact absurd hold hnew
  · rcases List.mem_singleton.mp hnewmem with rfl
    unfold saleCreateValid at hvalid
    exact ⟨hvalid.1, hvalid.2.1, hvalid.2.2.1, hvalid.2.2.2.1⟩

/-- Witness for C8 (amended): a committed sale's header amounts are
nonnegative. -/
theorem claim8_witness :
    0 ≤ saleZero.subtotal ∧ 0 ≤ saleZero.taxAmount ∧ 0 ≤ saleZero.discountAmount ∧
      0 ≤ saleZero.totalAmount :=
  claim8_committed_sale_nonnegative dbZero reqZero 7 "SAW" 1 noFaults 1
    (by with_unfolding_all decide) saleZero
    (by rw [show (processSale dbZero reqZero 7 "SAW" 1 noFaults).db.sales = [saleZero] from by
          with_unfolding_all decide]
        exact List.mem_singleton_self _)
    (by simp [dbZero])

/-- Counterexample to claim C9: two sale creations on the same day whose
epoch-millisecond timestamps differ but share the same last four digits
receive the identical generated sale number. -/
theorem claim9_counterexample :
    generateSaleNumber "20261011" (last4 1766000000000) =
      generateSaleNumber "20261011" (last4 1766000010000) ∧
    (1766000000000 : Nat) ≠ 1766000010000 := by decide

/-- Claim C9 as amended: generated sale numbers are distinct whenever the
date strings (of equal length) or the timestamp suffixes differ; only
creations sharing both the day string and the timestamp suffix collide. -/
theorem claim9_distinct (d1 d2 s1 s2 : String) (hlen : d1.length = d2.length)
    (hne : d1 ≠ d2 ∨ s1 ≠ s2) :
    generateSaleNumber d1 s1 ≠ generateSaleNumber d2 s2 := by
  intro h
  unfold generateSaleNumber at h
  have hdata := congrArg String.data h
  simp only [String.data_append] at hdata
  have hl2 : ("SA".data ++ d1.data).length = ("SA".data ++ d2.data).length := by
    have : d1.data.length = d2.data.length := hlen
    simp [this]
  obtain ⟨h12, hs12⟩ := List.append_inj hdata hl2
  have hd : d1 = d2 := String.ext (List.append_cancel_left h12)
  have hsfx : s1 = s2 := String.ext hs12
  rcases hne with hne | hne
  · exact hne hd
  · exact hne hsfx

/-- Witness for C9 (amended): same day, different suffixes, different
numbers. -/
theorem claim9_witness :
    generateSaleNumber "20260101" "0001" ≠ generateSaleNumber "20260101" "0002" :=
  claim9_distinct "20260101" "20260101" "0001" "0002" rfl (Or.inr (by decide))

/-- Claim C10: a refund request supplying an explicit amount of 0 behaves
exactly like a request supplying no amount at all — the JS falsy-or makes
the zero default to the sale's full total, so no zero-amount refund is ever
processed through `processRefund`. -/
theorem claim10_zero_amount (db : DB) (sid : Nat) (reason : String) (f : RefundFaults) :
    processRefund db sid reason (some 0) f = processRefund db sid reason none f := by
  simp [processRefund, jsOr]

end PharmacySales
